import Mathlib

/-!
Shallow embedding of the soda logging facade (src/src/lib.rs, crate `soda`:
a pyo3 binding over the `log`/`fern` crates) and proofs about its claims.

Conventions of the embedding:
* `log` crate severities and `LevelFilter`s are modelled with their usize
  discriminants, since the crate compares them as usize.
* The file system is an association list from path to file contents; a path
  absent from the list cannot be opened (read or append).
* Python-level arguments that may fail to decode as text are `Option String`
  (`none` models a failed `to_str`).
* A Rust `panic!` (including `Result::unwrap` on `Err`) is an explicit
  `panicked` constructor carrying the state at the moment of the panic.
-/

/-- Severity of a log record in the `log` crate: `Error < Warn < Info < Debug < Trace`
when ordered by increasing verbosity (usize discriminants 1..5). -/
inductive LogLevel where
  | Error
  | Warn
  | Info
  | Debug
  | Trace
deriving DecidableEq, Repr

/-- Usize discriminant of a `log::Level`, used by the crate for comparisons. -/
def LogLevel.toNat : LogLevel → Nat
  | .Error => 1
  | .Warn => 2
  | .Info => 3
  | .Debug => 4
  | .Trace => 5

/-- Display name of a `log::Level` (its `Display` impl). -/
def LogLevel.name : LogLevel → String
  | .Error => "ERROR"
  | .Warn => "WARN"
  | .Info => "INFO"
  | .Debug => "DEBUG"
  | .Trace => "TRACE"

/-- Maximum-severity filter of the `log` crate: `Off < Error < Warn < Info < Debug < Trace`
(usize discriminants 0..5). -/
inductive LevelFilter where
  | Off
  | Error
  | Warn
  | Info
  | Debug
  | Trace
deriving DecidableEq, Repr

/-- Usize discriminant of a `log::LevelFilter`. -/
def LevelFilter.toNat : LevelFilter → Nat
  | .Off => 0
  | .Error => 1
  | .Warn => 2
  | .Info => 3
  | .Debug => 4
  | .Trace => 5

/-- Admission rule of a fern `Dispatch` carrying a single global level filter:
a record of level `l` passes filter `f` iff `l <= f` as usize. -/
def LevelFilter.admits (f : LevelFilter) (l : LogLevel) : Bool :=
  l.toNat ≤ f.toNat

/-- Comparison `record.level() > log::LevelFilter::Info` from the formatter closure
in `Soda::basicConfig` (the `log` crate compares a `Level` to a `LevelFilter` as usize). -/
def LogLevel.gtInfoFilter (l : LogLevel) : Bool :=
  LevelFilter.Info.toNat < l.toNat

/-- The verbosity match in `Soda::new` (src/src/lib.rs lines 69-74): the level filter
installed on the freshly built fern `Dispatch`. Verbosity 2 maps to `Warn` in the code. -/
def verbosityFilter : Nat → LevelFilter
  | 0 => .Info
  | 1 => .Debug
  | 2 => .Warn
  | _ => .Trace

/-- The `Level` enum of the crate (line 25): the facade-local level marker. -/
inductive Level where
  | NOTSET
  | DEBUG
  | INFO
  | WARNING
  | ERROR
  | CRITICAL
deriving DecidableEq, Repr

/-- The `FileLogger` struct (line 247): the file sink of the facade. -/
structure FileLogger where
  enabled : Bool
  path : String
deriving DecidableEq, Repr

/-- `FileLogger::new` (line 253): disabled, with the default path. -/
def FileLogger.new : FileLogger :=
  { enabled := false, path := "default.log" }

/-- The `Handlers` struct (line 46). -/
structure Handlers where
  FileHandler : FileLogger
deriving DecidableEq, Repr

/-- `Handlers::new` (line 54): both arguments are ignored by the body. -/
def Handlers.new (json : Bool) (file : Bool) : Handlers :=
  { FileHandler := FileLogger.new }

/-- The `Soda` facade struct (line 37). -/
structure Soda where
  level : Level
  format : String
  handlers : Handlers
deriving DecidableEq, Repr

/-- `Soda::new` (lines 65-81): builds a fern `Dispatch` from the verbosity, then drops
it without applying or storing it, and returns a constant facade state. -/
def Soda.new (verbosity : Nat) : Soda :=
  let base_config := verbosityFilter verbosity
  { level := Level.NOTSET, format := "", handlers := Handlers.new false false }

/-- File system model: association list from path to file contents. A path absent
from the list cannot be opened, for read or for append. -/
abbrev FS := List (String × String)

/-- Contents of the file at a path, `none` when an open of that path fails. -/
def fsRead : FS → String → Option String
  | [], _ => none
  | (q, c) :: rest, p => if q = p then some c else fsRead rest p

/-- Replace the contents of an existing file; paths not present are untouched. -/
def fsWrite : FS → String → String → FS
  | [], _, _ => []
  | (q, c) :: rest, p, newc =>
    if q = p then (p, newc) :: rest else (q, c) :: fsWrite rest p newc

/-- Outcome of one `FileLogger::logger` call: either a Rust panic, or a new file
system together with the lines printed to stderr during the call. -/
inductive LoggerResult where
  | panicked (msg : String)
  | ok (fs : FS) (stderr : List String)
deriving DecidableEq, Repr

/-- `FileLogger::logger` (lines 260-269): opens `self.path` with write+append (no
create) and calls `.unwrap()` on the result, so a failing open panics; on success
`writeln!` appends the message plus a newline, and a failing write is reported on
stderr without a panic. `writeOk` models whether the underlying write succeeds. -/
def FileLogger.logger (self : FileLogger) (message : String) (fs : FS)
    (writeOk : Bool) : LoggerResult :=
  match fsRead fs self.path with
  | none => .panicked "called Result unwrap on an Err value"
  | some contents =>
    if writeOk then .ok (fsWrite fs self.path (contents ++ message ++ "\n")) []
    else .ok fs ["Could not write to file"]

/-- Outcome of one `Soda::addFileHandler` call: either the updated facade, or a
Rust panic carrying the facade state at the moment of the panic. -/
inductive AttachResult where
  | ok (s : Soda)
  | panicked (s : Soda) (msg : String)
deriving DecidableEq, Repr

/-- The two assignments at the end of `Soda::addFileHandler` (lines 151-152):
enable the file handler and store the path; every other field is kept. -/
def attachTo (s : Soda) (path : String) : Soda :=
  { s with handlers := { FileHandler := { enabled := true, path := path } } }

/-- `Soda::addFileHandler` (lines 137-153): `File::open(&path)` tests existence;
on `NotFound` the file is created with `File::create`, and a failing create
panics; an open error of any other kind (`openOtherErr`) panics; on every
successful path the handler is enabled and the path stored, and the opened or
created handle is dropped at once (bound to an underscore). `createOk` models
whether `File::create` succeeds (it fails e.g. when the parent directory is
missing). -/
def Soda.addFileHandler (s : Soda) (path : String) (fs : FS)
    (openOtherErr : Bool) (createOk : Bool) : AttachResult × FS :=
  if openOtherErr then
    (.panicked s "an error occured", fs)
  else
    match fsRead fs path with
    | some _ => (.ok (attachTo s path), fs)
    | none =>
      if createOk then (.ok (attachTo s path), fs ++ [(path, "")])
      else (.panicked s "Problem creating the file", fs)

/-- Observable delivery action of one facade entry point: a record handed to the
global `log` crate chain (the macros stamp the crate module path `soda` as the
target), or an invocation of the facade-local file sink. -/
inductive Effect where
  | globalLog (target : String) (level : LogLevel) (msg : String)
  | fileSinkWrite (msg : String)
deriving DecidableEq, Repr

/-- `Soda::callback` (lines 155-167), delivery view: invokes `FileLogger::logger`
exactly when the handler is enabled. -/
def Soda.callbackEffects (s : Soda) (message : String) : List Effect :=
  match s.handlers.FileHandler.enabled with
  | true => [.fileSinkWrite message]
  | false => []

/-- `Soda::callback` (lines 155-167), file-system view: runs `FileLogger::logger`
when the handler is enabled, and touches nothing when it is disabled. -/
def Soda.callbackRun (s : Soda) (message : String) (fs : FS)
    (writeOk : Bool) : LoggerResult :=
  match s.handlers.FileHandler.enabled with
  | true => s.handlers.FileHandler.logger message fs writeOk
  | false => .ok fs []

/-- `Soda::info` (lines 126-135): a message that fails to decode returns at once;
otherwise the record goes to the global chain and then to the local callback. -/
def Soda.info (s : Soda) (message : Option String) : Soda × List Effect :=
  match message with
  | none => (s, [])
  | some msg => (s, .globalLog "soda" .Info msg :: s.callbackEffects msg)

/-- `Soda::warning` (lines 169-176): decode check, then the `warn!` macro only. -/
def Soda.warning (s : Soda) (message : Option String) : Soda × List Effect :=
  match message with
  | none => (s, [])
  | some msg => (s, [.globalLog "soda" .Warn msg])

/-- `Soda::debug` (lines 178-185): decode check, then the `debug!` macro only. -/
def Soda.debug (s : Soda) (message : Option String) : Soda × List Effect :=
  match message with
  | none => (s, [])
  | some msg => (s, [.globalLog "soda" .Debug msg])

/-- `Soda::trace` (lines 187-194): decode check, then the `trace!` macro only. -/
def Soda.trace (s : Soda) (message : Option String) : Soda × List Effect :=
  match message with
  | none => (s, [])
  | some msg => (s, [.globalLog "soda" .Trace msg])

/-- `Soda::error` (lines 196-203): decode check, then the `error!` macro only. -/
def Soda.error (s : Soda) (message : Option String) : Soda × List Effect :=
  match message with
  | none => (s, [])
  | some msg => (s, [.globalLog "soda" .Error msg])

/-- `Soda::setLevel` (lines 205-215): the numeric code mutates the local level
marker; the second component is what the call prints to stdout. -/
def Soda.setLevel (s : Soda) (verbosity : Nat) : Soda × List String :=
  match verbosity with
  | 1 => ({ s with level := Level.DEBUG }, [])
  | 2 => ({ s with level := Level.INFO }, [])
  | 3 => ({ s with level := Level.WARNING }, [])
  | _ => ({ s with level := Level.DEBUG },
      ["Found none, setting default value to DEBUG"])

/-- The formatter closure installed by `Soda::basicConfig` (lines 103-124). `ts`
stands for the chrono-formatted timestamp string. The emphasized block is chosen
when the record is strictly more verbose than Info and its target is the crate
name `soda`. -/
def formatRecord (ts target : String) (level : LogLevel) (message : String) : String :=
  if level.gtInfoFilter && target == "soda" then
    "---\nDEBUG: " ++ ts ++ ": " ++ message ++ "\n---"
  else
    "[" ++ ts ++ "][" ++ target ++ "][" ++ level.name ++ "] " ++ message

/-- Shape from the spec formatter rule: the multi-line emphasized block. -/
def emphasizedBlock (ts message : String) : String :=
  "---\nDEBUG: " ++ ts ++ ": " ++ message ++ "\n---"

/-- Shape from the spec formatter rule: the plain single-line record. -/
def singleLine (ts target : String) (level : LogLevel) (message : String) : String :=
  "[" ++ ts ++ "][" ++ target ++ "][" ++ level.name ++ "] " ++ message

/-- C1: the claim says verbosity 2 yields a Debug default minimum with no
override; the code at src/src/lib.rs line 72 installs `LevelFilter::Warn` at
verbosity 2, while the commented reference `setup_logging` in the same file
(lines 296-308, matching the spec word for word) installs Debug there and the
per-target caps at verbosities 0 and 1 that the live match dropped. -/
theorem C1_verbosity2_is_warn :
    verbosityFilter 0 = LevelFilter.Info ∧
    verbosityFilter 1 = LevelFilter.Debug ∧
    verbosityFilter 3 = LevelFilter.Trace ∧
    verbosityFilter 2 = LevelFilter.Warn ∧
    verbosityFilter 2 ≠ LevelFilter.Debug := by decide

/-- C2: the claim says raising verbosity never tightens filtering; in the code a
Debug record is admitted by the filter built at verbosity 1 and rejected by the
filter built at verbosity 2, because verbosity 2 installs `LevelFilter::Warn`. -/
theorem C2_monotonicity_fails :
    (verbosityFilter 1).admits LogLevel.Debug = true ∧
    (verbosityFilter 2).admits LogLevel.Debug = false := by decide

/-- C3 counterexample: a Debug record with an empty target is rendered as the
plain single line, not as the emphasized block the claim promises, because the
code tests the target against the crate name `soda`, not against emptiness. -/
theorem C3_counterexample :
    LogLevel.Debug.gtInfoFilter = true ∧
    formatRecord "T" "" LogLevel.Debug "m" = "[T][][DEBUG] m" ∧
    formatRecord "T" "" LogLevel.Debug "m" ≠ emphasizedBlock "T" "m" := by decide

/-- C3 amended: the formatter renders the multi-line emphasized block exactly
when the record is strictly more verbose than Info and its target is the crate
name `soda`; in every other case it renders the plain single line. -/
theorem C3_formatter (ts target : String) (level : LogLevel) (message : String) :
    (level.gtInfoFilter = true ∧ target = "soda" →
      formatRecord ts target level message = emphasizedBlock ts message) ∧
    (¬ (level.gtInfoFilter = true ∧ target = "soda") →
      formatRecord ts target level message = singleLine ts target level message) := by
  refine ⟨fun h => ?_, fun h => ?_⟩
  · obtain ⟨h1, h2⟩ := h
    subst h2
    simp [formatRecord, emphasizedBlock, h1]
  · have hb : (level.gtInfoFilter && (target == "soda")) = false := by
      cases hg : level.gtInfoFilter with
      | false => rfl
      | true =>
        cases ht : (target == "soda") with
        | false => rfl
        | true => exact absurd ⟨hg, eq_of_beq ht⟩ h
    simp [formatRecord, singleLine, hb]

/-- C3 witness: both branches of the amended formatter rule at concrete inputs. -/
theorem C3_formatter_witness :
    formatRecord "T" "soda" LogLevel.Debug "m" = emphasizedBlock "T" "m" ∧
    formatRecord "T" "" LogLevel.Info "m" = singleLine "T" "" LogLevel.Info "m" :=
  ⟨(C3_formatter "T" "soda" LogLevel.Debug "m").1 ⟨by decide, rfl⟩,
   (C3_formatter "T" "" LogLevel.Info "m").2 (by decide)⟩

/-- C4 counterexample: with the sink enabled and its file gone, the write call
panics (the `.unwrap()` on the failed append-mode open) instead of reporting an
IoFailure and carrying on as the claim promises. -/
theorem C4_counterexample :
    FileLogger.logger { enabled := true, path := "gone.log" } "m" [] true =
      LoggerResult.panicked "called Result unwrap on an Err value" ∧
    FileLogger.logger { enabled := true, path := "gone.log" } "m" [] true ≠
      LoggerResult.ok [] [] := by decide

/-- C4 amended: the write opens the file in append mode for the duration of the
call and appends the message plus a trailing newline; a failing write is
reported on stderr without a crash; but a failing open-for-append panics,
crashing out of the call, rather than reporting an IoFailure. -/
theorem C4_fileSink_write (self : FileLogger) (message : String) (fs : FS)
    (contents : String) (h : fsRead fs self.path = some contents) :
    self.logger message fs true =
      LoggerResult.ok (fsWrite fs self.path (contents ++ message ++ "\n")) [] ∧
    self.logger message fs false = LoggerResult.ok fs ["Could not write to file"] ∧
    (∀ fs2 : FS, fsRead fs2 self.path = none →
      self.logger message fs2 true =
        LoggerResult.panicked "called Result unwrap on an Err value") := by
  refine ⟨?_, ?_, fun fs2 h2 => ?_⟩
  · simp [FileLogger.logger, h]
  · simp [FileLogger.logger, h]
  · simp [FileLogger.logger, h2]

/-- C4 witness: a concrete append to an existing one-entry file system. -/
theorem C4_fileSink_write_witness :
    FileLogger.logger { enabled := true, path := "a.log" } "m" [("a.log", "x\n")] true =
      LoggerResult.ok [("a.log", "x\nm\n")] [] :=
  (C4_fileSink_write { enabled := true, path := "a.log" } "m" [("a.log", "x\n")] "x\n" rfl).1

/-- C5: addFileHandler tests existence with an open for read, creates the file
when it is missing, and on every successful path enables the handler and stores
the path while dropping the opened handle; the facade keeps only the flag and
the path, no handle, and its other fields are untouched. -/
theorem C5_addFileHandler (s : Soda) (path : String) (fs : FS) (createOk : Bool) :
    (∀ c, fsRead fs path = some c →
      s.addFileHandler path fs false createOk = (.ok (attachTo s path), fs)) ∧
    (fsRead fs path = none → createOk = true →
      s.addFileHandler path fs false createOk =
        (.ok (attachTo s path), fs ++ [(path, "")])) ∧
    (attachTo s path).handlers.FileHandler.enabled = true ∧
    (attachTo s path).handlers.FileHandler.path = path ∧
    (attachTo s path).level = s.level ∧
    (attachTo s path).format = s.format := by
  refine ⟨fun c hc => ?_, fun hn hco => ?_, rfl, rfl, rfl, rfl⟩
  · simp [Soda.addFileHandler, hc]
  · subst hco
    simp [Soda.addFileHandler, hn]

/-- C5 witness: attaching to an existing file enables the handler in place. -/
theorem C5_addFileHandler_witness :
    (Soda.new 0).addFileHandler "a.log" [("a.log", "")] false true =
      (AttachResult.ok (attachTo (Soda.new 0) "a.log"), [("a.log", "")]) :=
  (C5_addFileHandler (Soda.new 0) "a.log" [("a.log", "")] true).1 "" rfl

/-- C6: an attachment that fails, by an open error of a kind other than
NotFound or by a failing create (for instance when the parent directory is
missing), ends in a panic that reports the error, and the facade state it ends
with is exactly the prior state: the handler is still disabled and its stored
path is unchanged, and the file system is untouched. -/
theorem C6_attach_failure (s : Soda) (path : String) (fs : FS) (createOk : Bool)
    (henabled : s.handlers.FileHandler.enabled = false) :
    s.addFileHandler path fs true createOk =
      (.panicked s "an error occured", fs) ∧
    (fsRead fs path = none →
      s.addFileHandler path fs false false =
        (.panicked s "Problem creating the file", fs)) ∧
    s.handlers.FileHandler.enabled = false := by
  refine ⟨rfl, fun hn => ?_, henabled⟩
  simp [Soda.addFileHandler, hn]

/-- C6 witness: both failing attachment paths at a concrete facade and path. -/
theorem C6_attach_failure_witness :
    (Soda.new 0).addFileHandler "d/x.log" [] true true =
      (AttachResult.panicked (Soda.new 0) "an error occured", ([] : FS)) ∧
    (Soda.new 0).addFileHandler "d/x.log" [] false false =
      (AttachResult.panicked (Soda.new 0) "Problem creating the file", ([] : FS)) :=
  ⟨(C6_attach_failure (Soda.new 0) "d/x.log" [] true rfl).1,
   (C6_attach_failure (Soda.new 0) "d/x.log" [] false rfl).2.1 rfl⟩

/-- C7: info hands the record to the global chain and then to the local
callback; the callback invokes the file sink exactly when the handler is
enabled, appending the message plus a newline to the stored path, and performs
no file-system action when disabled; warning, debug, trace and error never
reach the file sink. -/
theorem C7_info_routing (s : Soda) (msg : String) (fs : FS) (contents : String) :
    s.info (some msg) =
      (s, Effect.globalLog "soda" LogLevel.Info msg :: s.callbackEffects msg) ∧
    (s.handlers.FileHandler.enabled = true →
      s.callbackEffects msg = [Effect.fileSinkWrite msg]) ∧
    (s.handlers.FileHandler.enabled = false →
      s.callbackEffects msg = [] ∧ s.callbackRun msg fs true = LoggerResult.ok fs []) ∧
    (s.handlers.FileHandler.enabled = true →
      fsRead fs s.handlers.FileHandler.path = some contents →
      s.callbackRun msg fs true =
        LoggerResult.ok
          (fsWrite fs s.handlers.FileHandler.path (contents ++ msg ++ "\n")) []) ∧
    ((s.warning (some msg)).2 = [Effect.globalLog "soda" LogLevel.Warn msg] ∧
     (s.debug (some msg)).2 = [Effect.globalLog "soda" LogLevel.Debug msg] ∧
     (s.trace (some msg)).2 = [Effect.globalLog "soda" LogLevel.Trace msg] ∧
     (s.error (some msg)).2 = [Effect.globalLog "soda" LogLevel.Error msg]) := by
  refine ⟨rfl, fun he => ?_, fun he => ⟨?_, ?_⟩, fun he hr => ?_, rfl, rfl, rfl, rfl⟩
  · simp [Soda.callbackEffects, he]
  · simp [Soda.callbackEffects, he]
  · simp [Soda.callbackRun, he]
  · simp [Soda.callbackRun, he, FileLogger.logger, hr]

/-- C7 witness: an enabled facade appends through the callback at a concrete
file system, and the effect views evaluate as stated. -/
theorem C7_info_routing_witness :
    (attachTo (Soda.new 0) "a.log").callbackRun "m" [("a.log", "")] true =
      LoggerResult.ok [("a.log", "m\n")] [] ∧
    (attachTo (Soda.new 0) "a.log").callbackEffects "m" = [Effect.fileSinkWrite "m"] :=
  ⟨(C7_info_routing (attachTo (Soda.new 0) "a.log") "m" [("a.log", "")] "").2.2.2.1
      rfl rfl,
   (C7_info_routing (attachTo (Soda.new 0) "a.log") "m" [] "").2.1 rfl⟩

/-- C8: setLevel maps code 1 to DEBUG, 2 to INFO and 3 to WARNING without any
notice, and every other code prints the fallback notice and sets DEBUG; the
call is total, so no error ever reaches the caller. -/
theorem C8_setLevel (s : Soda) (n : Nat) (h : n ≠ 1 ∧ n ≠ 2 ∧ n ≠ 3) :
    (s.setLevel 1).1.level = Level.DEBUG ∧ (s.setLevel 1).2 = [] ∧
    (s.setLevel 2).1.level = Level.INFO ∧ (s.setLevel 2).2 = [] ∧
    (s.setLevel 3).1.level = Level.WARNING ∧ (s.setLevel 3).2 = [] ∧
    (s.setLevel n).1.level = Level.DEBUG ∧
    (s.setLevel n).2 = ["Found none, setting default value to DEBUG"] := by
  obtain ⟨h1, h2, h3⟩ := h
  refine ⟨rfl, rfl, rfl, rfl, rfl, rfl, ?_, ?_⟩ <;>
  · rcases n with _ | _ | _ | _ | m
    · rfl
    · exact absurd rfl h1
    · exact absurd rfl h2
    · exact absurd rfl h3
    · rfl

/-- C8 witness: the out-of-range code 7 takes the fallback branch. -/
theorem C8_setLevel_witness :
    ((Soda.new 0).setLevel 7).1.level = Level.DEBUG ∧
    ((Soda.new 0).setLevel 7).2 = ["Found none, setting default value to DEBUG"] :=
  ⟨(C8_setLevel (Soda.new 0) 7 (by decide)).2.2.2.2.2.2.1,
   (C8_setLevel (Soda.new 0) 7 (by decide)).2.2.2.2.2.2.2⟩

/-- C9: on a message that fails to decode as text, every entry point returns at
once with the facade state unchanged and no delivery action of any kind. -/
theorem C9_decode_failure (s : Soda) :
    s.info none = (s, []) ∧ s.warning none = (s, []) ∧ s.debug none = (s, []) ∧
    s.trace none = (s, []) ∧ s.error none = (s, []) :=
  ⟨rfl, rfl, rfl, rfl, rfl⟩

/-- C10: the constructor builds the verbosity-derived dispatch configuration and
discards it, so any two verbosities produce identical facades: level NOTSET,
empty format, file handler disabled with path default.log. -/
theorem C10_constructor_ignores_verbosity (v1 v2 : Nat) :
    Soda.new v1 = Soda.new v2 ∧
    Soda.new v1 = { level := Level.NOTSET, format := "", handlers := { FileHandler := { enabled := false, path := "default.log" } } } :=
  ⟨rfl, rfl⟩
